import Mathlib

/-!
Shallow embedding of the starcoin `network-new/src/net.rs` peer-to-peer
message bridge: the wire `Message` protocol with its codec, the identity
translator, the acknowledgment table, the event dispatcher
(`handle_event`), the outbound pump (`send_network_message`) and the
`NetworkService` facade operations (`is_connected`, `send_message`,
`broadcast_message`).

Stateful Rust code is embedded as explicit state passing: the libp2p
transport handle becomes a record of the connected-peer list and a log of
raw sends, and each facade operation returns its successor state together
with a trace of the observable actions it performed, in program order.
A Rust panic (an `unwrap`/`expect` on a fallible value) is embedded as
`none` in an `Option`-valued result.
-/

namespace StarcoinNet

/-- Byte buffers are lists of naturals; a well-formed byte is below 256. -/
abbrev Bytes := List Nat

/-- Node-level address (`types::account_address::AccountAddress`), a 16-byte value in starcoin. -/
abbrev AccountAddress := List Nat

/-- Transport-level peer identifier (`libp2p PeerId`). -/
abbrev PeerId := List Nat

/-- Modelled from the spec: the Identity Translator direction
`convert_account_address_to_peer_id` is absent from the provided sources
(only its callers in `net.rs` are). Per spec section 4.1 it is a total,
deterministic, side-effect-free, invertible derivation that fails exactly
on malformed input such as a wrong byte length. We model a well-formed
address as exactly 16 bytes and derive the peer id by prepending a
multihash-style tag byte. -/
def convert_account_address_to_peer_id (a : AccountAddress) : Option PeerId :=
  if a.length = 16 then some (18 :: a) else none

/-- Modelled from the spec: the inverse direction
`convert_peer_id_to_account_address` (spec section 4.1), failing on
malformed peer identifiers. -/
def convert_peer_id_to_account_address (p : PeerId) : Option AccountAddress :=
  match p with
  | 18 :: rest => if rest.length = 16 then some rest else none
  | _ => none

/-- Wire-level message (spec section 3): a user `Payload` carrying an opaque
byte buffer and a 128-bit correlation id (0 meaning no acknowledgment
requested), or an `ACK` carrying the correlation id being acknowledged. -/
inductive Message where
  | Payload (id : Nat) (data : Bytes)
  | ACK (id : Nat)
deriving DecidableEq

/-- Little-endian base-256 serialization of a natural into `k` bytes. -/
def natToBytes : Nat → Nat → Bytes
  | 0, _ => []
  | k + 1, n => n % 256 :: natToBytes k (n / 256)

/-- Little-endian base-256 deserialization of a byte list. -/
def bytesToNat : Bytes → Nat
  | [] => 0
  | b :: bs => b + 256 * bytesToNat bs

theorem natToBytes_length (k n : Nat) : (natToBytes k n).length = k := by
  induction k generalizing n with
  | zero => rfl
  | succ k ih => simp [natToBytes, ih]

theorem bytesToNat_natToBytes (k n : Nat) (h : n < 256 ^ k) :
    bytesToNat (natToBytes k n) = n := by
  induction k generalizing n with
  | zero =>
    simp [natToBytes, bytesToNat]
    omega
  | succ k ih =>
    have hdiv : n / 256 < 256 ^ k := by
      rw [Nat.div_lt_iff_lt_mul (by norm_num)]
      calc n < 256 ^ (k + 1) := h
        _ = 256 ^ k * 256 := by rw [Nat.pow_succ]
    simp only [natToBytes, bytesToNat, ih (n / 256) hdiv]
    exact Nat.mod_add_div n 256

/-- Modelled from the spec: the binary codec (`scs::SCSCodec`,
`Message::into_bytes`) is absent from the provided sources. Per spec
section 6 the wire format is a tag byte, a fixed-width 128-bit (16-byte)
correlation id, and, for payloads, length-prefixed data (the length in a
fixed 8-byte word). -/
def Message.into_bytes : Message → Bytes
  | .Payload id data => 0 :: (natToBytes 16 id ++ natToBytes 8 data.length ++ data)
  | .ACK id => 1 :: natToBytes 16 id

/-- Modelled from the spec: the decoder (`Message::from_bytes`), rejecting
truncated or malformed frames with `none` (spec section 6). -/
def Message.from_bytes (bs : Bytes) : Option Message :=
  match bs with
  | 0 :: rest =>
    if 24 ≤ rest.length ∧ (rest.drop 24).length = bytesToNat ((rest.drop 16).take 8)
    then some (.Payload (bytesToNat (rest.take 16)) (rest.drop 24))
    else none
  | 1 :: rest =>
    if rest.length = 16 then some (.ACK (bytesToNat rest)) else none
  | _ => none

/-- A message is constructible at the wire level when its correlation id
fits in 128 bits and, for payloads, the data length fits the transport
word size (spec section 3: id is a u128; data is an opaque buffer). -/
def Message.wf : Message → Prop
  | .Payload id data => id < 2 ^ 128 ∧ data.length < 2 ^ 64
  | .ACK id => id < 2 ^ 128

theorem pow256_16 : (256 : Nat) ^ 16 = 2 ^ 128 := by norm_num

theorem pow256_8 : (256 : Nat) ^ 8 = 2 ^ 64 := by norm_num

theorem from_bytes_ack (id : Nat) (hid : id < 2 ^ 128) :
    Message.from_bytes (Message.ACK id).into_bytes = some (.ACK id) := by
  have hlen : (natToBytes 16 id).length = 16 := natToBytes_length 16 id
  have hval : bytesToNat (natToBytes 16 id) = id :=
    bytesToNat_natToBytes 16 id (by rw [pow256_16]; exact hid)
  simp [Message.into_bytes, Message.from_bytes, hlen, hval]

theorem from_bytes_payload (id : Nat) (data : Bytes) (hid : id < 2 ^ 128)
    (hlen : data.length < 2 ^ 64) :
    Message.from_bytes (Message.Payload id data).into_bytes = some (.Payload id data) := by
  have hA : (natToBytes 16 id).length = 16 := natToBytes_length 16 id
  have hB : (natToBytes 8 data.length).length = 8 := natToBytes_length 8 data.length
  have hidv : bytesToNat (natToBytes 16 id) = id :=
    bytesToNat_natToBytes 16 id (by rw [pow256_16]; exact hid)
  have hlenv : bytesToNat (natToBytes 8 data.length) = data.length :=
    bytesToNat_natToBytes 8 data.length (by rw [pow256_8]; exact hlen)
  have htake16 :
      (natToBytes 16 id ++ natToBytes 8 data.length ++ data).take 16 = natToBytes 16 id := by
    rw [List.append_assoc]
    exact List.take_left' hA
  have hdrop16 :
      (natToBytes 16 id ++ natToBytes 8 data.length ++ data).drop 16 =
        natToBytes 8 data.length ++ data := by
    rw [List.append_assoc]
    exact List.drop_left' hA
  have hdrop24 :
      (natToBytes 16 id ++ natToBytes 8 data.length ++ data).drop 24 = data := by
    apply List.drop_left'
    simp [hA, hB]
  have hlength :
      (natToBytes 16 id ++ natToBytes 8 data.length ++ data).length = 24 + data.length := by
    simp [hA, hB]
    omega
  simp only [Message.into_bytes, Message.from_bytes, htake16, hdrop16, hdrop24, hlength,
    List.take_left' hB, hidv, hlenv]
  simp

/-- Modelled from the spec: `Message::new_payload` (spec section 4.2)
allocates a fresh non-zero correlation id and wraps the data, returning
both the message and the id. The spec leaves the generation strategy
pluggable (requiring only non-zero, collision-free ids), so we model it as
a threaded counter: the caller passes the generator state and the
allocated id is the successor, hence never zero. -/
def Message.new_payload (data : Bytes) (gen : Nat) : Message × Nat :=
  (.Payload (gen + 1) data, gen + 1)

/-- Modelled from the spec: `Message::new_message` builds the
fire-and-forget payload carrying the reserved correlation id 0, meaning no
acknowledgment is requested (spec sections 3 and 4.6); used by the
outbound pump. -/
def Message.new_message (data : Bytes) : Message :=
  .Payload 0 data

/-- Inbound message handed to the upper layers (`messages::NetworkMessage`):
the translated sender address and the opaque data. -/
structure NetworkMessage where
  peer_id : AccountAddress
  data : Bytes
deriving DecidableEq

/-- Connection lifecycle notification pushed to the upper layers. -/
inductive PeerEvent where
  | Open (addr : AccountAddress)
  | Close (addr : AccountAddress)
deriving DecidableEq

/-- Transport-level event (`GenericProtoOut`) consumed by `handle_event`. -/
inductive ServiceEvent where
  | CustomMessage (peer_id : PeerId) (message : Bytes)
  | CustomProtocolOpen (peer_id : PeerId)
  | CustomProtocolClosed (peer_id : PeerId)
  | Clogged (peer_id : PeerId) (messages : List Bytes)
deriving DecidableEq

/-- Observable action performed by an operation, recorded in program
order: a raw transport send, an acknowledgment-table registration, a push
onto the inbound queue, a push onto the peer-event queue, the firing of a
completion handle, or a log line. -/
inductive Action where
  | sendCustom (peer_id : PeerId) (bytes : Bytes)
  | registerAck (id : Nat) (handle : Nat)
  | pushInbound (msg : NetworkMessage)
  | pushPeerEvent (ev : PeerEvent)
  | fireAck (handle : Nat)
  | logError
  | logDebug
deriving DecidableEq

/-- The transport handle (`NetworkWorker`), reduced to the interface the
core uses: the connected-peer list and a log of the raw sends issued
through `send_custom_message`, in order. -/
structure Libp2pService where
  connected : List PeerId
  sent : List (PeerId × Bytes)
deriving DecidableEq

/-- Raw send through the transport: appended to the send log. -/
def Libp2pService.send_custom_message (s : Libp2pService) (p : PeerId) (bytes : Bytes) :
    Libp2pService :=
  { s with sent := s.sent ++ [(p, bytes)] }

/-- Whether the transport reports an open connection for a peer. -/
def Libp2pService.is_open (s : Libp2pService) (p : PeerId) : Bool :=
  s.connected.contains p

/-- The connected-peer set as reported by the transport. -/
def Libp2pService.connected_peers (s : Libp2pService) : List PeerId :=
  s.connected

/-- The acknowledgment table `HashMap<u128, oneshot::Sender<()>>`,
embedded as an association list from correlation id to the completion
handle (oneshot senders are identified by a natural token). -/
abbrev AckTable := List (Nat × Nat)

/-- `HashMap::remove` of a key: drops the entry for that key. -/
def removeAck (t : AckTable) (k : Nat) : AckTable :=
  t.filter (fun kv => kv.1 != k)

/-- The `NetworkService` facade state: the shared transport handle, the
shared acknowledgment table, and the freshness sources for correlation
ids (`Message::new_payload`) and oneshot completion handles. -/
structure NetworkService where
  libp2p : Libp2pService
  acks : AckTable
  idGen : Nat
  handleGen : Nat
deriving DecidableEq

/-- `NetworkService::is_connected` (net.rs lines 277 to 281): translates
the address with `.unwrap()` — embedded as `none` on translation failure,
the panic — and otherwise asks the transport whether the peer is open. -/
def NetworkService.is_connected (s : NetworkService) (address : AccountAddress) :
    Option Bool :=
  match convert_account_address_to_peer_id address with
  | none => none
  | some peer_id => some (s.libp2p.is_open peer_id)

/-- Result of `NetworkService::send_message`: the successor state, the
returned completion handle (the oneshot receiver), and the trace of
observable actions in program order. -/
structure SendOutcome where
  service : NetworkService
  rx : Nat
  trace : List Action
deriving DecidableEq

/-- `NetworkService::send_message` (net.rs lines 287 to 303), in program
order: create a oneshot channel, allocate a fresh payload and id via
`Message::new_payload`, translate the destination address with `.expect`
(embedded as `none`, the panic, on failure), issue the raw send through
the locked transport handle, then insert the id into the acknowledgment
table, and return the receiver immediately. -/
def NetworkService.send_message (s : NetworkService) (account_address : AccountAddress)
    (message : Bytes) : Option SendOutcome :=
  let tx := s.handleGen
  let pm := Message.new_payload message s.idGen
  match convert_account_address_to_peer_id account_address with
  | none => none
  | some peer_id =>
    let lib := s.libp2p.send_custom_message peer_id pm.1.into_bytes
    let acks := removeAck s.acks pm.2 ++ [(pm.2, tx)]
    some { service := { libp2p := lib, acks := acks, idGen := pm.2, handleGen := tx + 1 },
           rx := tx,
           trace := [.sendCustom peer_id pm.1.into_bytes, .registerAck pm.2 tx] }

/-- Result of `NetworkService::broadcast_message`: the successor state and
the trace of raw sends in program order. -/
structure BroadcastOutcome where
  service : NetworkService
  trace : List Action
deriving DecidableEq

/-- `NetworkService::broadcast_message` (net.rs lines 305 to 324): build
one payload via `Message::new_payload`, encode it once, snapshot the
connected-peer set into a `HashSet` (deduplicating), then send the same
byte buffer to each peer in the snapshot. The returned id is discarded
and never registered in the acknowledgment table. -/
def NetworkService.broadcast_message (s : NetworkService) (message : Bytes) :
    BroadcastOutcome :=
  let pm := Message.new_payload message s.idGen
  let message_bytes := pm.1.into_bytes
  let peers := s.libp2p.connected_peers.dedup
  let lib := peers.foldl (fun srv p => srv.send_custom_message p message_bytes) s.libp2p
  { service := { s with libp2p := lib, idGen := pm.2 },
    trace := peers.map (fun p => .sendCustom p message_bytes) }

/-- Result of one `handle_event` dispatch: the acknowledgment table after
the event, the completion handles fired, and the trace of observable
actions in program order. -/
structure DispatchOutcome where
  acks : AckTable
  fired : List Nat
  trace : List Action
deriving DecidableEq

/-- `handle_event` (net.rs lines 130 to 191), the Event Dispatcher. For a
`CustomMessage` the bytes are decoded with `.unwrap()` and the sender peer
id translated with `.unwrap()` — both embedded as `none`, the panic, on
failure. A decoded `Payload` is pushed to the inbound queue and, when its
id is non-zero, an `ACK` frame is sent back to the sender; a decoded `ACK`
removes the table entry and fires its handle when present, otherwise only
logs an error. Protocol open and close events translate the peer id (again
`.unwrap()`) and push the corresponding `PeerEvent`; congestion is only
logged. -/
def handle_event (acks : AckTable) (event : ServiceEvent) : Option DispatchOutcome :=
  match event with
  | .CustomMessage peer_id message =>
    match Message.from_bytes message with
    | none => none
    | some (.Payload pid pdata) =>
      match convert_peer_id_to_account_address peer_id with
      | none => none
      | some address =>
        some { acks := acks, fired := [],
               trace :=
                 if pid ≠ 0 then
                   [.pushInbound { peer_id := address, data := pdata },
                    .sendCustom peer_id (Message.ACK pid).into_bytes]
                 else
                   [.pushInbound { peer_id := address, data := pdata }] }
    | some (.ACK message_id) =>
      match List.lookup message_id acks with
      | some tx =>
        some { acks := removeAck acks message_id, fired := [tx], trace := [.fireAck tx] }
      | none =>
        some { acks := acks, fired := [], trace := [.logError] }
  | .CustomProtocolOpen peer_id =>
    match convert_peer_id_to_account_address peer_id with
    | none => none
    | some addr =>
      some { acks := acks, fired := [], trace := [.pushPeerEvent (.Open addr)] }
  | .CustomProtocolClosed peer_id =>
    match convert_peer_id_to_account_address peer_id with
    | none => none
    | some addr =>
      some { acks := acks, fired := [], trace := [.pushPeerEvent (.Close addr)] }
  | .Clogged _ _ =>
    some { acks := acks, fired := [], trace := [.logDebug] }

/-- `send_network_message` (net.rs lines 193 to 210), the Outbound Pump
body for one request: translate the destination address with `.unwrap()`
(embedded as `none`, the panic, on failure), send the fire-and-forget
frame built by `Message::new_message`, then log an error if the transport
reports the peer is not open — the send was already attempted. -/
def send_network_message (message : NetworkMessage) (net_srv : Libp2pService) :
    Option (Libp2pService × List Action) :=
  match convert_account_address_to_peer_id message.peer_id with
  | none => none
  | some peer_id =>
    let srv := net_srv.send_custom_message peer_id (Message.new_message message.data).into_bytes
    let tr :=
      if srv.is_open peer_id = false then
        [Action.sendCustom peer_id (Message.new_message message.data).into_bytes,
         Action.logError]
      else
        [Action.sendCustom peer_id (Message.new_message message.data).into_bytes]
    some (srv, tr)

theorem lookup_removeAck_self (t : AckTable) (k : Nat) :
    List.lookup k (removeAck t k) = none := by
  induction t with
  | nil => rfl
  | cons hd tl ih =>
    by_cases h : hd.1 = k
    · simpa [removeAck, List.filter_cons, h] using ih
    · have hbeq : (k == hd.1) = false := beq_eq_false_iff_ne.mpr (Ne.symm h)
      simpa [removeAck, List.filter_cons, List.lookup, h, hbeq] using ih

theorem lookup_removeAck_append (t : AckTable) (k v : Nat) :
    List.lookup k (removeAck t k ++ [(k, v)]) = some v := by
  induction t with
  | nil => simp [removeAck, List.lookup]
  | cons hd tl ih =>
    by_cases h : hd.1 = k
    · simpa [removeAck, List.filter_cons, h] using ih
    · have hbeq : (k == hd.1) = false := beq_eq_false_iff_ne.mpr (Ne.symm h)
      simpa [removeAck, List.filter_cons, List.lookup, h, hbeq] using ih

/-- C6: for every constructible wire-level message m — a Payload with a
128-bit correlation id and a byte buffer, or an ACK with a 128-bit id —
decoding the encoding of m yields m. -/
theorem c6_decode_encode (m : Message) (hm : m.wf) :
    Message.from_bytes m.into_bytes = some m := by
  match m with
  | .Payload id data => exact from_bytes_payload id data hm.1 hm.2
  | .ACK id => exact from_bytes_ack id hm

/-- Witness for C6 at the payload with id 5 and data 1, 2, 3 and at the
acknowledgment with id 7. -/
theorem c6_decode_encode_witness :
    Message.from_bytes (Message.Payload 5 [1, 2, 3]).into_bytes =
        some (Message.Payload 5 [1, 2, 3]) ∧
      Message.from_bytes (Message.ACK 7).into_bytes = some (Message.ACK 7) :=
  ⟨c6_decode_encode (Message.Payload 5 [1, 2, 3]) ⟨by decide, by decide⟩,
   c6_decode_encode (Message.ACK 7) (show (7 : Nat) < 2 ^ 128 by decide)⟩

/-- C2: dispatching an ACK frame for a correlation id registered in the
acknowledgment table removes the entry and fires its completion handle
exactly once; dispatching the same ACK again afterwards, or an ACK for an
id never registered, fires no handle, returns no error to the loop, and
only logs the unknown-ack condition. -/
theorem c2_ack_resolution (acks : AckTable) (peer_id : PeerId) (id tx : Nat)
    (hid : id < 2 ^ 128) :
    (List.lookup id acks = some tx →
      handle_event acks (.CustomMessage peer_id (Message.ACK id).into_bytes) =
          some { acks := removeAck acks id, fired := [tx], trace := [.fireAck tx] } ∧
        List.lookup id (removeAck acks id) = none ∧
        handle_event (removeAck acks id) (.CustomMessage peer_id (Message.ACK id).into_bytes) =
          some { acks := removeAck acks id, fired := [], trace := [.logError] }) ∧
    (List.lookup id acks = none →
      handle_event acks (.CustomMessage peer_id (Message.ACK id).into_bytes) =
        some { acks := acks, fired := [], trace := [.logError] }) := by
  have hdec := from_bytes_ack id hid
  constructor
  · intro hreg
    refine ⟨?_, lookup_removeAck_self acks id, ?_⟩
    · simp [handle_event, hdec, hreg]
    · simp [handle_event, hdec, lookup_removeAck_self acks id]
  · intro habs
    simp [handle_event, hdec, habs]

/-- Witness for C2 on the table mapping id 5 to handle 9: resolving id 5
fires handle 9 and empties the table, resolving it again only logs, and
resolving the absent id 7 only logs. -/
theorem c2_ack_resolution_witness :
    (handle_event [(5, 9)] (.CustomMessage [18] (Message.ACK 5).into_bytes) =
        some { acks := removeAck [(5, 9)] 5, fired := [9], trace := [.fireAck 9] } ∧
      List.lookup 5 (removeAck [(5, 9)] 5) = none ∧
      handle_event (removeAck [(5, 9)] 5) (.CustomMessage [18] (Message.ACK 5).into_bytes) =
        some { acks := removeAck [(5, 9)] 5, fired := [], trace := [.logError] }) ∧
    handle_event [(5, 9)] (.CustomMessage [18] (Message.ACK 7).into_bytes) =
      some { acks := [(5, 9)], fired := [], trace := [.logError] } :=
  ⟨(c2_ack_resolution [(5, 9)] [18] 5 9 (by decide)).1 (by decide),
   (c2_ack_resolution [(5, 9)] [18] 7 0 (by decide)).2 (by decide)⟩

/-- C3: an inbound CustomMessage whose bytes decode to a Payload with id
and data, arriving from a peer whose identifier translates to address,
pushes the NetworkMessage with that address and data onto the inbound
queue, and sends an ACK carrying id back to that peer if and only if id is
non-zero. -/
theorem c3_inbound_payload (acks : AckTable) (peer_id : PeerId) (bytes : Bytes)
    (id : Nat) (data : Bytes) (address : AccountAddress)
    (hdec : Message.from_bytes bytes = some (.Payload id data))
    (htr : convert_peer_id_to_account_address peer_id = some address) :
    handle_event acks (.CustomMessage peer_id bytes) =
      some { acks := acks, fired := [],
             trace :=
               if id ≠ 0 then
                 [.pushInbound { peer_id := address, data := data },
                  .sendCustom peer_id (Message.ACK id).into_bytes]
               else
                 [.pushInbound { peer_id := address, data := data }] } := by
  simp [handle_event, hdec, htr]

/-- Witness for C3: a payload with non-zero id 3 is pushed and then
acknowledged; a payload with id 0 is pushed and no ACK is sent. -/
theorem c3_inbound_payload_witness :
    handle_event [] (.CustomMessage (18 :: List.replicate 16 0)
        (Message.Payload 3 [7]).into_bytes) =
      some { acks := [], fired := [],
             trace := [.pushInbound { peer_id := List.replicate 16 0, data := [7] },
                       .sendCustom (18 :: List.replicate 16 0) (Message.ACK 3).into_bytes] } ∧
    handle_event [] (.CustomMessage (18 :: List.replicate 16 0)
        (Message.Payload 0 [7]).into_bytes) =
      some { acks := [], fired := [],
             trace := [.pushInbound { peer_id := List.replicate 16 0, data := [7] }] } := by
  constructor
  · simpa using c3_inbound_payload [] (18 :: List.replicate 16 0)
      (Message.Payload 3 [7]).into_bytes 3 [7] (List.replicate 16 0) (by decide) (by decide)
  · simpa using c3_inbound_payload [] (18 :: List.replicate 16 0)
      (Message.Payload 0 [7]).into_bytes 0 [7] (List.replicate 16 0) (by decide) (by decide)

/-- C10: for an inbound Payload with non-zero id, the dispatch trace is
exactly the inbound-queue push at position zero followed by the returning
ACK send at position one, so the push strictly precedes the
acknowledgment traffic. -/
theorem c10_inbound_before_ack (acks : AckTable) (peer_id : PeerId) (bytes : Bytes)
    (id : Nat) (data : Bytes) (address : AccountAddress)
    (hdec : Message.from_bytes bytes = some (.Payload id data))
    (htr : convert_peer_id_to_account_address peer_id = some address)
    (hid : id ≠ 0) :
    (handle_event acks (.CustomMessage peer_id bytes)).map DispatchOutcome.trace =
      some [.pushInbound { peer_id := address, data := data },
            .sendCustom peer_id (Message.ACK id).into_bytes] := by
  simp [handle_event, hdec, htr, hid]

/-- Witness for C10 at the payload with id 3 and data 7. -/
theorem c10_inbound_before_ack_witness :
    (handle_event [] (.CustomMessage (18 :: List.replicate 16 0)
        (Message.Payload 3 [7]).into_bytes)).map DispatchOutcome.trace =
      some [.pushInbound { peer_id := List.replicate 16 0, data := [7] },
            .sendCustom (18 :: List.replicate 16 0) (Message.ACK 3).into_bytes] :=
  c10_inbound_before_ack [] (18 :: List.replicate 16 0)
    (Message.Payload 3 [7]).into_bytes 3 [7] (List.replicate 16 0)
    (by decide) (by decide) (by decide)

/-- C5: the claim says malformed inbound input is logged and dropped and
nothing below the facade ever aborts; the code instead hits an unwrap and
aborts the network thread, embedded here as a none result. Evaluated at
the failing inputs: a CustomMessage whose bytes fail to decode, a
protocol-open event whose peer id fails translation, and an outbound
request whose destination address fails translation. -/
theorem c5_malformed_input_aborts :
    handle_event [] (.CustomMessage (18 :: List.replicate 16 0) []) = none ∧
      handle_event [] (.CustomProtocolOpen [99]) = none ∧
      send_network_message { peer_id := [1, 2], data := [7] }
          { connected := [], sent := [] } = none := by
  decide

/-- C7 counterexample: on the empty address, whose identity translation
fails, is_connected hits the unwrap and aborts (embedded none) instead of
returning false as the claim states. -/
theorem c7_is_connected_counterexample :
    (NetworkService.mk { connected := [], sent := [] } [] 0 0).is_connected [] = none ∧
      (NetworkService.mk { connected := [], sent := [] } [] 0 0).is_connected [] ≠
        some false := by
  decide

/-- C7 amended: whenever the address translates to a peer id,
is_connected returns exactly the transport's open-connection report — in
particular false, not an error, for a translatable but never-connected
address; it returns true exactly when the transport reports the
connection open. On translation failure the call aborts instead of
returning false. -/
theorem c7_is_connected_amended (s : NetworkService) (address : AccountAddress)
    (peer_id : PeerId)
    (htr : convert_account_address_to_peer_id address = some peer_id) :
    s.is_connected address = some (s.libp2p.is_open peer_id) ∧
      (s.is_connected address = some true ↔ s.libp2p.is_open peer_id = true) := by
  refine ⟨?_, ?_⟩ <;> simp [NetworkService.is_connected, htr]

/-- Witness for C7 amended: a never-connected but well-formed address
yields some false; the same address yields some true once the transport
reports the peer open. -/
theorem c7_is_connected_amended_witness :
    ((NetworkService.mk { connected := [], sent := [] } [] 0 0).is_connected
          (List.replicate 16 3) =
        some (Libp2pService.is_open { connected := [], sent := [] }
          (18 :: List.replicate 16 3)) ∧
      ((NetworkService.mk { connected := [], sent := [] } [] 0 0).is_connected
            (List.replicate 16 3) =
          some true ↔
        Libp2pService.is_open { connected := [], sent := [] }
            (18 :: List.replicate 16 3) = true)) ∧
    (NetworkService.mk { connected := [18 :: List.replicate 16 3], sent := [] }
          [] 0 0).is_connected (List.replicate 16 3) =
      some (Libp2pService.is_open { connected := [18 :: List.replicate 16 3], sent := [] }
        (18 :: List.replicate 16 3)) :=
  ⟨c7_is_connected_amended (NetworkService.mk { connected := [], sent := [] } [] 0 0)
      (List.replicate 16 3) (18 :: List.replicate 16 3) (by decide),
   (c7_is_connected_amended
      (NetworkService.mk { connected := [18 :: List.replicate 16 3], sent := [] } [] 0 0)
      (List.replicate 16 3) (18 :: List.replicate 16 3) (by decide)).1⟩

/-- C8: broadcast_message leaves the acknowledgment table unchanged — the
correlation id of the broadcast payload is never registered, so no
completion handle ever exists for an ACK a recipient returns for a
broadcast. -/
theorem c8_broadcast_preserves_acks (s : NetworkService) (message : Bytes) :
    (s.broadcast_message message).service.acks = s.acks :=
  rfl

/-- C9: within one broadcast_message call the payload is encoded once and
every snapshot peer is sent that one byte buffer, carrying the single
correlation id allocated by the one new_payload call: the trace maps the
same frame over the deduplicated snapshot, and the id generator advances
exactly once (no per-peer id allocation). -/
theorem c9_broadcast_single_frame (s : NetworkService) (message : Bytes) :
    (s.broadcast_message message).trace =
        s.libp2p.connected_peers.dedup.map
          (fun p => .sendCustom p (Message.Payload (s.idGen + 1) message).into_bytes) ∧
      (s.broadcast_message message).service.idGen = s.idGen + 1 :=
  ⟨rfl, rfl⟩

/-- C1: the claim says the broadcast payload carries correlation id 0 (no
acknowledgment requested). Evaluated with connected peers pA and pB (pA
reported twice), broadcasting data 1, 2, 3 does snapshot once, deduplicate,
and issue exactly one send per snapshot peer with one shared frame and no
table registration — but the frame decodes to a payload whose fresh
correlation id is 1, not 0. -/
theorem c1_broadcast_nonzero_id :
    ((NetworkService.mk
          { connected := [18 :: List.replicate 16 0, 18 :: List.replicate 16 1,
              18 :: List.replicate 16 0], sent := [] } [] 0 0).broadcast_message
        [1, 2, 3]).trace =
        [.sendCustom (18 :: List.replicate 16 1) (Message.Payload 1 [1, 2, 3]).into_bytes,
         .sendCustom (18 :: List.replicate 16 0) (Message.Payload 1 [1, 2, 3]).into_bytes] ∧
      Message.from_bytes (Message.Payload 1 [1, 2, 3]).into_bytes =
        some (Message.Payload 1 [1, 2, 3]) ∧
      (1 : Nat) ≠ 0 ∧
      ((NetworkService.mk
          { connected := [18 :: List.replicate 16 0, 18 :: List.replicate 16 1,
              18 :: List.replicate 16 0], sent := [] } [] 0 0).broadcast_message
        [1, 2, 3]).service.acks = [] := by
  decide

/-- C4 counterexample: at a concrete send_message call the trace is the
raw transport send at position zero followed by the table registration at
position one, and no position holds a registration preceding the send:
the correlation id enters the table only after the send is issued, and no
outbound-queue enqueue occurs. -/
theorem c4_send_before_register :
    (((NetworkService.mk { connected := [], sent := [] } [] 0 0).send_message
          (List.replicate 16 2) [9]).map SendOutcome.trace =
        some [.sendCustom (18 :: List.replicate 16 2) (Message.Payload 1 [9]).into_bytes,
              .registerAck 1 0]) ∧
      ¬ ∃ i : Fin 2, ∃ j : Fin 2, i < j ∧
        [Action.sendCustom (18 :: List.replicate 16 2) (Message.Payload 1 [9]).into_bytes,
          Action.registerAck 1 0].get i = Action.registerAck 1 0 ∧
        [Action.sendCustom (18 :: List.replicate 16 2) (Message.Payload 1 [9]).into_bytes,
          Action.registerAck 1 0].get j =
          Action.sendCustom (18 :: List.replicate 16 2)
            (Message.Payload 1 [9]).into_bytes := by
  decide

/-- C4 amended: send_message allocates the fresh correlation id, issues
the raw send directly through the shared transport handle (there is no
outbound-queue enqueue), then registers the id in the acknowledgment
table, and returns the completion handle immediately; after the call the
id maps to the returned handle, but the registration follows the send. -/
theorem c4_send_message_amended (s : NetworkService) (account_address : AccountAddress)
    (message : Bytes) (peer_id : PeerId)
    (htr : convert_account_address_to_peer_id account_address = some peer_id) :
    s.send_message account_address message =
        some { service :=
                 { libp2p := s.libp2p.send_custom_message peer_id
                     (Message.Payload (s.idGen + 1) message).into_bytes,
                   acks := removeAck s.acks (s.idGen + 1) ++ [(s.idGen + 1, s.handleGen)],
                   idGen := s.idGen + 1,
                   handleGen := s.handleGen + 1 },
               rx := s.handleGen,
               trace := [.sendCustom peer_id (Message.Payload (s.idGen + 1) message).into_bytes,
                         .registerAck (s.idGen + 1) s.handleGen] } ∧
      List.lookup (s.idGen + 1)
          (removeAck s.acks (s.idGen + 1) ++ [(s.idGen + 1, s.handleGen)]) =
        some s.handleGen := by
  constructor
  · simp [NetworkService.send_message, htr, Message.new_payload]
  · exact lookup_removeAck_append s.acks (s.idGen + 1) s.handleGen

/-- Witness for C4 amended at a fresh service and the well-formed address
of sixteen 2-bytes. -/
theorem c4_send_message_amended_witness :
    (NetworkService.mk { connected := [], sent := [] } [] 0 0).send_message
          (List.replicate 16 2) [9] =
        some { service :=
                 { libp2p := Libp2pService.send_custom_message { connected := [], sent := [] }
                     (18 :: List.replicate 16 2) (Message.Payload 1 [9]).into_bytes,
                   acks := removeAck [] 1 ++ [(1, 0)],
                   idGen := 1,
                   handleGen := 1 },
               rx := 0,
               trace := [.sendCustom (18 :: List.replicate 16 2)
                           (Message.Payload 1 [9]).into_bytes,
                         .registerAck 1 0] } ∧
      List.lookup 1 (removeAck [] 1 ++ [(1, 0)]) = some 0 :=
  c4_send_message_amended (NetworkService.mk { connected := [], sent := [] } [] 0 0)
    (List.replicate 16 2) [9] (18 :: List.replicate 16 2) (by decide)

end StarcoinNet
